import Mathlib

/-!
Verification of the RDAPclient core logic: a shallow embedding of the
identifier validators, bootstrap caches, server resolver and RDAP response
normalizer, together with theorems settling the specified properties.

JavaScript semantics are modelled explicitly where the source relies on
them: string truthiness (`||`), `parseInt`, `Date#toUTCString` on ISO
timestamps, and loosely-typed vCard arrays (as a small JSON value type).
-/

/-- Models JavaScript `a || b` for strings: the empty string is the only
falsy string value. -/
def jsOr (a b : String) : String := if a = "" then b else a

/-- Models `String.prototype.trim` on a character list: whitespace is
stripped from both ends. -/
def trimChars (l : List Char) : List Char :=
  ((l.dropWhile Char.isWhitespace).reverse.dropWhile Char.isWhitespace).reverse

/-- Models JavaScript `s.trim()`. -/
def jsTrim (s : String) : String := String.mk (trimChars s.data)

/-- Value of a (most-significant-first) list of decimal digit characters. -/
def digitsToNat (ds : List Char) : Nat :=
  ds.foldl (fun a c => a * 10 + (c.toNat - 48)) 0

/-- The digit-run stage of `parseInt`: the longest leading run of decimal
digits, `none` (that is, `NaN`) when there is none. -/
def parseDigitRun (l : List Char) : Option Int :=
  let ds := l.takeWhile Char.isDigit
  if ds = [] then none else some (digitsToNat ds : Int)

/-- Models ECMAScript `parseInt(s, 10)`: skip leading whitespace, read an
optional sign and then the longest run of decimal digits; `none` models the
`NaN` result when no digit is found. -/
def parseIntJS (s : String) : Option Int :=
  match s.data.dropWhile Char.isWhitespace with
  | [] => none
  | c :: t =>
    if c = '-' then (parseDigitRun t).map (fun v => -v)
    else if c = '+' then parseDigitRun t
    else parseDigitRun (c :: t)

/-- Models `s.charAt(0).toUpperCase() + s.slice(1)` (ASCII case mapping). -/
def jsCapitalize (s : String) : String :=
  match s.data with
  | [] => ""
  | c :: rest => String.mk (c.toUpper :: rest)

/-- Models `s.toLowerCase().replace(/\s+/g, ")` with an empty replacement:
lower-case the string and delete every whitespace character (ASCII model). -/
def jsLowerNoSpace (s : String) : String :=
  String.mk ((s.data.map Char.toLower).filter (fun c => !c.isWhitespace))

/-- Two-digit zero-padded decimal rendering. -/
def pad2 (n : Nat) : String := if n < 10 then "0" ++ toString n else toString n

/-- Four-digit zero-padded decimal rendering. -/
def pad4 (n : Nat) : String :=
  if n < 10 then "000" ++ toString n
  else if n < 100 then "00" ++ toString n
  else if n < 1000 then "0" ++ toString n
  else toString n

/-- Gregorian leap-year test. -/
def isLeapYear (y : Nat) : Bool :=
  (y % 4 == 0 && y % 100 != 0) || y % 400 == 0

/-- Number of days in a month (1-based month). -/
def daysInMonth (y m : Nat) : Nat :=
  if m == 2 then (if isLeapYear y then 29 else 28)
  else if m == 4 || m == 6 || m == 9 || m == 11 then 30
  else 31

/-- Weekday index via Zeller's congruence (0 = Saturday, 1 = Sunday, ...).
The year is shifted by 400 (the Gregorian calendar repeats every 400 years,
146097 days, a multiple of 7) so the computation stays in `Nat`. -/
def zellerDow (y m d : Nat) : Nat :=
  let mz := if m ≤ 2 then m + 12 else m
  let yz := if m ≤ 2 then y + 399 else y + 400
  let k := yz % 100
  let j := yz / 100
  (d + (13 * (mz + 1)) / 5 + k + k / 4 + j / 4 + 5 * j) % 7

/-- Weekday names indexed by `zellerDow`. -/
def dowNames : List String := ["Sat", "Sun", "Mon", "Tue", "Wed", "Thu", "Fri"]

/-- Month abbreviations (1-based month). -/
def monthNames : List String :=
  ["Jan", "Feb", "Mar", "Apr", "May", "Jun",
   "Jul", "Aug", "Sep", "Oct", "Nov", "Dec"]

/-- A parsed UTC date-time. -/
structure UtcDateTime where
  year : Nat
  month : Nat
  day : Nat
  hour : Nat
  minute : Nat
  second : Nat
deriving DecidableEq, Repr

/-- Decimal value of a digit character, `none` otherwise. -/
def digitVal (c : Char) : Option Nat :=
  if c.isDigit then some (c.toNat - 48) else none

/-- Parses an ISO-8601 UTC timestamp of the exact shape
`YYYY-MM-DDTHH:MM:SSZ`, rejecting out-of-range components, as the
ECMAScript Date ISO parser does.  Other Date-parsable layouts (fractional
seconds, offsets, date-only forms) are outside this embedding's scope. -/
def parseISOZ (s : String) : Option UtcDateTime :=
  match s.data with
  | [y1, y2, y3, y4, '-', m1, m2, '-', d1, d2, 'T',
     h1, h2, ':', i1, i2, ':', s1, s2, 'Z'] =>
    match digitVal y1, digitVal y2, digitVal y3, digitVal y4,
          digitVal m1, digitVal m2, digitVal d1, digitVal d2,
          digitVal h1, digitVal h2, digitVal i1, digitVal i2,
          digitVal s1, digitVal s2 with
    | some a, some b, some c, some d, some e, some f, some g, some h,
      some i, some j, some k, some l, some m, some n =>
      let year := ((a * 10 + b) * 10 + c) * 10 + d
      let month := e * 10 + f
      let day := g * 10 + h
      let hour := i * 10 + j
      let minute := k * 10 + l
      let second := m * 10 + n
      if 1 ≤ month && month ≤ 12 && 1 ≤ day && day ≤ daysInMonth year month
          && hour ≤ 23 && minute ≤ 59 && second ≤ 59 then
        some ⟨year, month, day, hour, minute, second⟩
      else none
    | _, _, _, _, _, _, _, _, _, _, _, _, _, _ => none
  | _ => none

/-- Renders a UTC date-time the way `Date#toUTCString` does:
`Www, DD Mon YYYY HH:MM:SS GMT`. -/
def formatUTCString (t : UtcDateTime) : String :=
  (dowNames.getD (zellerDow t.year t.month t.day) "") ++ ", " ++
    pad2 t.day ++ " " ++ (monthNames.getD (t.month - 1) "") ++ " " ++
    pad4 t.year ++ " " ++ pad2 t.hour ++ ":" ++ pad2 t.minute ++ ":" ++
    pad2 t.second ++ " GMT"

/-- Models `new Date(s).toUTCString()` for ISO `YYYY-MM-DDTHH:MM:SSZ`
inputs; any other input yields the string an invalid Date renders to. -/
def jsDateToUTCString (s : String) : String :=
  match parseISOZ s with
  | some t => formatUTCString t
  | none => "Invalid Date"

/-- Splits a character list at every occurrence of `sep`, the way
JavaScript `s.split(sep)` does for a one-character separator. -/
def splitOnChar (sep : Char) : List Char → List (List Char)
  | [] => [[]]
  | x :: rest =>
    if x = sep then [] :: splitOnChar sep rest
    else
      match splitOnChar sep rest with
      | h :: t => (x :: h) :: t
      | [] => [[x]]

/-- Splits a character list at every (leftmost, non-overlapping)
occurrence of `::`. -/
def splitOnDoubleColon : List Char → List (List Char)
  | ':' :: ':' :: rest => [] :: splitOnDoubleColon rest
  | x :: rest =>
    match splitOnDoubleColon rest with
    | h :: t => (x :: h) :: t
    | [] => [[x]]
  | [] => [[]]

/-- A loosely-typed JSON value, as much of it as the vCard-array scanning
code observes: strings, arrays, and any other value (parameter objects,
numbers, booleans) collapsed to an opaque constructor. -/
inductive JVal where
  | str : String → JVal
  | arr : List JVal → JVal
  | other : JVal
deriving Repr

namespace Rdap

/-- An RDAP event (`src/lib/rdap.ts`): both fields mandatory. -/
structure RdapEvent where
  eventAction : String
  eventDate : String
deriving DecidableEq, Repr

/-- An RDAP entity (`src/lib/rdap.ts`): optional roles and a loosely-typed
vCard array. -/
structure RdapEntity where
  roles : Option (List String)
  vcardArray : Option (List JVal)

/-- An RDAP nameserver entry. -/
structure RdapNameserver where
  ldhName : Option String
deriving DecidableEq, Repr

/-- The `secureDNS` member. -/
structure RdapSecureDns where
  delegationSigned : Option Bool
deriving DecidableEq, Repr

/-- An RDAP remark. -/
structure RdapRemark where
  title : Option String
  description : Option (List String)
deriving DecidableEq, Repr

/-- An RDAP link. -/
structure RdapLink where
  value : Option String
  rel : Option String
  href : Option String
  type : Option String
deriving DecidableEq, Repr

/-- The raw RDAP domain response (`src/lib/rdap.ts`), every field
optional. -/
structure RdapResponse where
  ldhName : Option String := none
  nameservers : Option (List RdapNameserver) := none
  status : Option (List String) := none
  events : Option (List RdapEvent) := none
  entities : Option (List RdapEntity) := none
  secureDNS : Option RdapSecureDns := none
  remarks : Option (List RdapRemark) := none
  links : Option (List RdapLink) := none

/-- Per-entity details extracted by `extractEntityDetails`. -/
structure EntityDetails where
  handle : Option String
  roles : Option (List String)
  name : Option String
  email : Option String
  organization : Option String
deriving DecidableEq, Repr

/-- A formatted EPP status with its ICANN documentation URL. -/
structure StatusEntry where
  label : String
  url : String
deriving DecidableEq, Repr

/-- The flat normalized record (`NormalizedRdapData` in `src/lib/rdap.ts`).
Fields the source types as optional are `Option`; `lastTransferred` is
always assigned by the normalizer so it is a plain `String` here. -/
structure NormalizedRdapData where
  domainName : String
  registrar : String
  registrarUrl : Option String
  registrarAbuseEmail : Option String
  registrarAbusePhone : Option String
  dnssec : String
  registeredOn : String
  expiresOn : String
  lastUpdated : String
  lastTransferred : String
  statuses : List StatusEntry
  nameservers : List String
  entities : List EntityDetails
  remarks : Option (List RdapRemark)
  links : Option (List RdapLink)
  rdapServer : Option String
deriving DecidableEq, Repr

/-- Models `vcard.find(item => Array.isArray(item) && item[0] === name)`. -/
def vcardFind (vcard : List JVal) (name : String) : Option JVal :=
  vcard.find? (fun item =>
    match item with
    | .arr (.str s :: _) => s == name
    | _ => false)

/-- Models `Array.isArray(x) && typeof x[3] === "string" ? x[3] : undefined`
after a `vcardFind`. -/
def vcardStr3 : Option JVal → Option String
  | some (.arr ys) =>
    match ys.get? 3 with
    | some (.str v) => some v
    | _ => none
  | _ => none

/-- Models the `findDate` closure of `normalizeRdapResponse`: locate the
event whose action matches and format its date, else the `"N/A"`
sentinel. -/
def findDate (data : RdapResponse) (action : String) : String :=
  match data.events.bind (fun evs =>
      evs.find? (fun e => e.eventAction == action)) with
  | some e => jsDateToUTCString e.eventDate
  | none => "N/A"

/-- Models `e.roles?.includes("registrar")`. -/
def rolesIncludesRegistrar (e : RdapEntity) : Bool :=
  match e.roles with
  | some rs => rs.contains "registrar"
  | none => false

/-- Models the `extractEntityDetails` closure: roles pass through, and the
`fn`/`email`/`org` vCard properties fill name/email/organization.  The
source's `RdapEntity` has no `handle` field, so `handle` is never set. -/
def extractEntityDetails (entity : RdapEntity) : EntityDetails :=
  match entity.vcardArray.bind (fun v => v.get? 1) with
  | some (.arr vcard) =>
    { handle := none
      roles := entity.roles
      name := vcardStr3 (vcardFind vcard "fn")
      email := vcardStr3 (vcardFind vcard "email")
      organization := vcardStr3 (vcardFind vcard "org") }
  | _ =>
    { handle := none, roles := entity.roles
      name := none, email := none, organization := none }

/-- Models the `findRegistrar` closure: the `fn` value of the first entity
whose roles include `"registrar"`, else `"N/A"`. -/
def findRegistrar (data : RdapResponse) : String :=
  match ((data.entities.bind (fun es => es.find? rolesIncludesRegistrar)).bind
      (fun r => r.vcardArray)).bind (fun v => v.get? 1) with
  | some (.arr vcard) => (vcardStr3 (vcardFind vcard "fn")).getD "N/A"
  | _ => "N/A"

/-- Result of the `findRegistrarDetails` closure. -/
structure RegistrarDetails where
  url : Option String
  abuseEmail : Option String
  abusePhone : Option String
deriving DecidableEq, Repr

/-- Models the `findRegistrarDetails` closure: `url`/`email`/`tel` vCard
values of the registrar entity. -/
def findRegistrarDetails (data : RdapResponse) : RegistrarDetails :=
  match ((data.entities.bind (fun es => es.find? rolesIncludesRegistrar)).bind
      (fun r => r.vcardArray)).bind (fun v => v.get? 1) with
  | some (.arr vcard) =>
    { url := vcardStr3 (vcardFind vcard "url")
      abuseEmail := vcardStr3 (vcardFind vcard "email")
      abusePhone := vcardStr3 (vcardFind vcard "tel") }
  | _ => { url := none, abuseEmail := none, abusePhone := none }

/-- Models the `toEppStatusUrl` closure. -/
def toEppStatusUrl (status : String) : String :=
  "https://icann.org/epp#" ++ jsLowerNoSpace status

/-- Shallow embedding of `normalizeRdapResponse` (`src/lib/rdap.ts`,
lines 107-224). -/
def normalizeRdapResponse (data : RdapResponse) (rdapServerUrl : Option String) :
    NormalizedRdapData :=
  let registrarDetails := findRegistrarDetails data
  { domainName := jsOr (data.ldhName.getD "") "N/A"
    registrar := findRegistrar data
    registrarUrl := registrarDetails.url
    registrarAbuseEmail := registrarDetails.abuseEmail
    registrarAbusePhone := registrarDetails.abusePhone
    dnssec :=
      if (data.secureDNS.bind (fun s => s.delegationSigned)).getD false
      then "Signed" else "Unsigned"
    registeredOn := findDate data "registration"
    expiresOn := findDate data "expiration"
    lastUpdated :=
      jsOr (jsOr (findDate data "last changed") (findDate data "last update"))
        "N/A"
    lastTransferred := findDate data "transfer"
    statuses :=
      match data.status with
      | some sts =>
        sts.map (fun st => ⟨jsCapitalize st, toEppStatusUrl st⟩)
      | none => []
    nameservers :=
      match data.nameservers with
      | some nss =>
        (nss.map (fun ns => jsOr (ns.ldhName.getD "") "N/A")).filter
          (fun s => s != "")
      | none => []
    entities := (data.entities.getD []).map extractEntityDetails
    remarks := data.remarks
    links := data.links
    rdapServer := rdapServerUrl }

/-- A bootstrap services table: each entry pairs a range set with a URL
list. -/
abbrev Services := List (List String × List String)

/-- Shallow embedding of `findRdapServerUrl` (`src/lib/rdap.ts`,
lines 65-72).  The module-level cache is passed explicitly; the source's
throw on an uninitialized cache is the caller's concern.  `urls[0]` of an
entry with no URLs is `undefined` in the source, modelled (like the final
`null`) as `none`. -/
def findRdapServerUrl (services : Services) (tld : String) : Option String :=
  match services with
  | [] => none
  | (tlds, urls) :: rest =>
    if tlds.contains tld then urls.head?
    else findRdapServerUrl rest tld

/-- Shallow embedding of `fetchAndCacheServers` (`src/lib/rdap.ts`,
lines 55-63): the module cache is threaded explicitly and the network is an
oracle (`.ok` = a 2xx response carrying `data.services`, `.error` = a fetch
failure).  Returns the outcome, the new cache, and whether a network fetch
was performed.  Note the function has no notion of time: a populated cache
is returned unconditionally. -/
def fetchAndCacheServers (rdapServersCache : Option Services)
    (network : Except String Services) :
    Except String Unit × Option Services × Bool :=
  match rdapServersCache with
  | some _ => (Except.ok (), rdapServersCache, false)
  | none =>
    match network with
    | Except.ok services => (Except.ok (), some services, true)
    | Except.error e => (Except.error e, none, true)

end Rdap

namespace AsnRdap

/-- Result record of `validateASN` (asn-rdap.ts). -/
structure ASNValidation where
  isValid : Bool
  normalized : Option Int
  error : Option String
deriving DecidableEq, Repr

/-- Shallow embedding of `validateASN` (asn-rdap.ts, lines 245-287).  The
`string | number` union argument is a sum; the string branch is
`parseInt(asn.trim(), 10)` and `none` models the `NaN` check.  Number
inputs are modelled as integers. -/
def validateASN (asn : String ⊕ Int) : ASNValidation :=
  let asnNum : Option Int :=
    match asn with
    | Sum.inl s => parseIntJS (jsTrim s)
    | Sum.inr n => some n
  match asnNum with
  | none => ⟨false, none, some "Invalid ASN format"⟩
  | some v =>
    if v < 0 ∨ v > 4294967295 then
      ⟨false, none, some "ASN must be between 0 and 4294967295"⟩
    else if v = 0 ∨ v = 65535 ∨ v = 4294967295 then
      ⟨false, none, some "Reserved ASN"⟩
    else ⟨true, some v, none⟩

end AsnRdap

namespace RdapBootstrap

/-- The five IANA bootstrap resource types (rdap-bootstrap.ts). -/
inductive BootstrapType where
  | dns
  | ipv4
  | ipv6
  | asn
  | objectTags
deriving DecidableEq, Repr

/-- An IANA bootstrap payload (rdap-bootstrap.ts `BootstrapData`). -/
structure BootstrapData where
  description : String
  publication : String
  services : Rdap.Services
  version : String
deriving DecidableEq, Repr

/-- A cache slot: payload plus absolute expiry instant (ms). -/
structure CacheEntry where
  data : BootstrapData
  expiry : Nat
deriving DecidableEq, Repr

/-- The `bootstrapCache` map, as an association list keyed by type. -/
abbrev Cache := List (BootstrapType × CacheEntry)

/-- 24 hours in milliseconds. -/
def CACHE_TTL : Nat := 24 * 60 * 60 * 1000

/-- `bootstrapCache.get(type)`. -/
def cacheGet (c : Cache) (t : BootstrapType) : Option CacheEntry :=
  (c.find? (fun p => p.1 == t)).map (fun p => p.2)

/-- `bootstrapCache.set(type, entry)`: replace-or-insert. -/
def cacheSet (c : Cache) (t : BootstrapType) (e : CacheEntry) : Cache :=
  (c.filter (fun p => p.1 != t)) ++ [(t, e)]

/-- The fetch-and-store branch of `fetchBootstrapData`: the network oracle
is `.ok` for a 2xx JSON payload and `.error` for a failed fetch (which the
source re-throws, leaving the cache unchanged).  The third component
records that a network fetch was attempted. -/
def fetchFresh (cache : Cache) (now : Nat) (t : BootstrapType)
    (network : Except String BootstrapData) :
    Except String BootstrapData × Cache × Bool :=
  match network with
  | Except.ok d => (Except.ok d, cacheSet cache t ⟨d, now + CACHE_TTL⟩, true)
  | Except.error e => (Except.error e, cache, true)

/-- Shallow embedding of the centralized `fetchBootstrapData`
(rdap-bootstrap.ts, lines 517-549): return the cached payload while
`now < expiry`, otherwise (or on a cache miss) fetch, stamp
`now + CACHE_TTL`, and store. -/
def fetchBootstrapData (cache : Cache) (now : Nat) (t : BootstrapType)
    (network : Except String BootstrapData) :
    Except String BootstrapData × Cache × Bool :=
  match cacheGet cache t with
  | some cached =>
    if now < cached.expiry then (Except.ok cached.data, cache, false)
    else fetchFresh cache now t network
  | none => fetchFresh cache now t network

end RdapBootstrap

namespace IpUtils

/-- IP version tag (ip-utils.ts). -/
inductive IPVersion where
  | IPv4
  | IPv6
deriving DecidableEq, Repr

/-- Result record of `validateIP` (ip-utils.ts). -/
structure IPValidationResult where
  isValid : Bool
  version : Option IPVersion
  normalized : Option String
  error : Option String
deriving DecidableEq, Repr

/-- Parses one dotted-quad octet: 1-3 decimal digits, value at most 255. -/
def parseOctet (l : List Char) : Option Nat :=
  if 1 ≤ l.length && l.length ≤ 3 && l.all Char.isDigit then
    let v := digitsToNat l
    if v ≤ 255 then some v else none
  else none

/-- Models the `ip-address` `Address4` parse for plain dotted-decimal
addresses (the forms the RDAP flows feed it); CIDR-suffixed or otherwise
non-quad strings are invalid here. -/
def parseIPv4 (s : String) : Option Nat :=
  match splitOnChar '.' s.data with
  | [a, b, c, d] =>
    match parseOctet a, parseOctet b, parseOctet c, parseOctet d with
    | some w, some x, some y, some z => some (((w * 256 + x) * 256 + y) * 256 + z)
    | _, _, _, _ => none
  | _ => none

/-- Hexadecimal digit value. -/
def hexVal (c : Char) : Option Nat :=
  if c.isDigit then some (c.toNat - 48)
  else if 'a' ≤ c && c ≤ 'f' then some (c.toNat - 87)
  else if 'A' ≤ c && c ≤ 'F' then some (c.toNat - 55)
  else none

/-- Parses one IPv6 group: 1-4 hex digits. -/
def parseHexGroup (l : List Char) : Option Nat :=
  if 1 ≤ l.length && l.length ≤ 4 then
    l.foldl (fun acc c => acc.bind (fun a => (hexVal c).map (fun v => a * 16 + v)))
      (some 0)
  else none

/-- Big-endian combination of 16-bit groups. -/
def combineGroups (gs : List Nat) : Nat :=
  gs.foldl (fun a g => a * 65536 + g) 0

/-- Models the `ip-address` `Address6` parse for colon-hex forms, with at
most one `::` abbreviation.  Embedded-IPv4 tails, zone identifiers and
CIDR suffixes are outside this embedding's scope and parse as invalid. -/
def parseIPv6 (s : String) : Option Nat :=
  match splitOnDoubleColon s.data with
  | [whole] =>
    match (splitOnChar ':' whole).mapM parseHexGroup with
    | some gs => if gs.length == 8 then some (combineGroups gs) else none
    | none => none
  | [l, r] =>
    let lg := if l = [] then some [] else (splitOnChar ':' l).mapM parseHexGroup
    let rg := if r = [] then some [] else (splitOnChar ':' r).mapM parseHexGroup
    match lg, rg with
    | some lgs, some rgs =>
      if lgs.length + rgs.length ≤ 7 then
        some (combineGroups
          (lgs ++ List.replicate (8 - lgs.length - rgs.length) 0 ++ rgs))
      else none
    | _, _ => none
  | _ => none

/-- CIDR containment by prefix comparison on `bits`-wide addresses. -/
def inCidr (bits a base plen : Nat) : Bool :=
  a / 2 ^ (bits - plen) == base / 2 ^ (bits - plen)

/-- Numeric value of a dotted quad given as four octets. -/
def ipv4Addr (a b c d : Nat) : Nat := ((a * 256 + b) * 256 + c) * 256 + d

/-- The private IPv4 ranges of `isPrivateIP`. -/
def privateRanges4 : List (Nat × Nat) :=
  [(ipv4Addr 10 0 0 0, 8), (ipv4Addr 172 16 0 0, 12),
   (ipv4Addr 192 168 0 0, 16), (ipv4Addr 127 0 0 0, 8),
   (ipv4Addr 169 254 0 0, 16)]

/-- The private IPv6 ranges of `isPrivateIP`: fc00::/7, fe80::/10,
::1/128. -/
def privateRanges6 : List (Nat × Nat) :=
  [(64512 * 2 ^ 112, 7), (65152 * 2 ^ 112, 10), (1, 128)]

/-- The reserved IPv4 ranges of `isReservedIP`. -/
def reservedRanges4 : List (Nat × Nat) :=
  [(ipv4Addr 0 0 0 0, 8), (ipv4Addr 224 0 0 0, 4),
   (ipv4Addr 240 0 0 0, 4), (ipv4Addr 255 255 255 255, 32)]

/-- The reserved IPv6 ranges of `isReservedIP`: ff00::/8, ::/128. -/
def reservedRanges6 : List (Nat × Nat) :=
  [(65280 * 2 ^ 112, 8), (0, 128)]

/-- Shallow embedding of `validateIP` (ip-utils.ts, lines 22-65): trim,
try IPv4 then IPv6, and report the canonical form (the `ip-address`
library's `.address` is the cleaned input string). -/
def validateIP (ip : String) : IPValidationResult :=
  match parseIPv4 (jsTrim ip) with
  | some _ => ⟨true, some IPVersion.IPv4, some (jsTrim ip), none⟩
  | none =>
    match parseIPv6 (jsTrim ip) with
    | some _ => ⟨true, some IPVersion.IPv6, some (jsTrim ip), none⟩
    | none => ⟨false, none, none, some "Invalid IP address format"⟩

/-- Membership of a normalized address in a list of (base, prefix) ranges,
given the parser and bit width for its version. -/
def inAnyRange (parse : String → Option Nat) (bits : Nat)
    (ranges : List (Nat × Nat)) (n : String) : Bool :=
  match parse n with
  | some a => ranges.any (fun r => inCidr bits a r.1 r.2)
  | none => false

/-- Shallow embedding of `isPrivateIP` (ip-utils.ts, lines 70-106): an
invalid or normalization-free result short-circuits to `false`, else the
version-specific private ranges are tested on the normalized address. -/
def isPrivateIP (ip : String) : Bool :=
  match validateIP ip with
  | ⟨true, some IPVersion.IPv4, some n, _⟩ => inAnyRange parseIPv4 32 privateRanges4 n
  | ⟨true, some IPVersion.IPv6, some n, _⟩ => inAnyRange parseIPv6 128 privateRanges6 n
  | _ => false

/-- Shallow embedding of `isReservedIP` (ip-utils.ts, lines 111-142). -/
def isReservedIP (ip : String) : Bool :=
  match validateIP ip with
  | ⟨true, some IPVersion.IPv4, some n, _⟩ => inAnyRange parseIPv4 32 reservedRanges4 n
  | ⟨true, some IPVersion.IPv6, some n, _⟩ => inAnyRange parseIPv6 128 reservedRanges6 n
  | _ => false

end IpUtils

namespace IpRdap

/-- An RDAP IP entity (ip-rdap.ts). -/
structure RdapIPEntity where
  handle : Option String
  roles : Option (List String)
  vcardArray : Option (List JVal)

/-- The raw RDAP IP-network response (ip-rdap.ts). -/
structure RdapIPResponse where
  objectClassName : String
  startAddress : Option String := none
  endAddress : Option String := none
  name : Option String := none
  type : Option String := none
  country : Option String := none
  events : Option (List Rdap.RdapEvent) := none
  entities : Option (List RdapIPEntity) := none

/-- The `network` member of `NormalizedIPData` (ip-rdap.ts). -/
structure IPNetworkInfo where
  cidr : Option String
  name : Option String
  country : Option String
  organization : Option String
  registrar : Option String
  registrationDate : Option String
  lastChanged : Option String
deriving DecidableEq, Repr

/-- The normalized IP lookup record (ip-rdap.ts). -/
structure NormalizedIPData where
  ip : String
  type : IpUtils.IPVersion
  network : IPNetworkInfo
  rdapServer : String
deriving DecidableEq, Repr

/-- A network action performed during a lookup, in order. -/
inductive NetEffect where
  | fetchBootstrap
  | rdapQuery (url : String)
deriving DecidableEq, Repr

/-- The module-level bootstrap cache state of ip-rdap.ts. -/
structure BootstrapState where
  ipv4BootstrapCache : Option Rdap.Services
  ipv6BootstrapCache : Option Rdap.Services
  bootstrapCacheExpiry : Nat
deriving Repr

/-- Shallow embedding of the ip-rdap.ts `fetchBootstrapData` (lines
56-87): reuse both caches while `now < bootstrapCacheExpiry`, otherwise
fetch both tables (one combined network action) and stamp a 24h expiry; a
failed fetch propagates and leaves the caches unchanged. -/
def fetchBootstrapData (st : BootstrapState) (now : Nat)
    (network : Except String (Rdap.Services × Rdap.Services)) :
    Except String BootstrapState × List NetEffect :=
  if st.ipv4BootstrapCache.isSome && st.ipv6BootstrapCache.isSome
      && decide (now < st.bootstrapCacheExpiry) then
    (Except.ok st, [])
  else
    match network with
    | Except.ok (v4, v6) =>
      (Except.ok ⟨some v4, some v6, now + 24 * 60 * 60 * 1000⟩,
        [NetEffect.fetchBootstrap])
    | Except.error e => (Except.error e, [NetEffect.fetchBootstrap])

/-- Parses `addr` or `addr/prefix` against a version parser; models the
`ip-address` constructors inside the resolver's try/catch. -/
def parseCidrWith (parse : String → Option Nat) (bits : Nat) (s : String) :
    Option (Nat × Nat) :=
  match splitOnChar '/' s.data with
  | [addr] => (parse (String.mk addr)).map (fun a => (a, bits))
  | [addr, p] =>
    match parse (String.mk addr),
        (if p ≠ [] && p.all Char.isDigit then some (digitsToNat p)
         else none) with
    | some a, some plen => if plen ≤ bits then some (a, plen) else none
    | _, _ => none
  | _ => none

/-- Models `new AddressN(ip).isInSubnet(new AddressN(cidr))` with parse
failures caught as a non-match (the source's `catch { continue }`). -/
def subnetMatch (version : IpUtils.IPVersion) (ip cidr : String) : Bool :=
  match version with
  | IpUtils.IPVersion.IPv4 =>
    match IpUtils.parseIPv4 ip, parseCidrWith IpUtils.parseIPv4 32 cidr with
    | some a, some bp => IpUtils.inCidr 32 a bp.1 bp.2
    | _, _ => false
  | IpUtils.IPVersion.IPv6 =>
    match IpUtils.parseIPv6 ip, parseCidrWith IpUtils.parseIPv6 128 cidr with
    | some a, some bp => IpUtils.inCidr 128 a bp.1 bp.2
    | _, _ => false

/-- The table scan of `findRdapServerForIP`: first entry with a containing
CIDR wins and its first URL (possibly absent) is returned. -/
def scanForServer (ip : String) (version : IpUtils.IPVersion) :
    Rdap.Services → Option String
  | [] => none
  | (cidrs, urls) :: rest =>
    if cidrs.any (fun c => subnetMatch version ip c) then urls.head?
    else scanForServer ip version rest

/-- Shallow embedding of `findRdapServerForIP` (ip-rdap.ts, lines 92-122):
throws when the bootstrap cache is unloaded, else scans it. -/
def findRdapServerForIP (cache : Option Rdap.Services) (ip : String)
    (version : IpUtils.IPVersion) : Except String (Option String) :=
  match cache with
  | none => Except.error "Bootstrap data not loaded"
  | some services => Except.ok (scanForServer ip version services)

/-- Shallow embedding of `extractOrganization` (ip-rdap.ts, lines
174-190): first entity whose vCard yields an `org` (else `fn`) string. -/
def extractOrganization : List RdapIPEntity → Option String
  | [] => none
  | entity :: rest =>
    match entity.vcardArray.bind (fun v => v.get? 1) with
    | some (JVal.arr vcard) =>
      match Rdap.vcardStr3 (Rdap.vcardFind vcard "org") with
      | some o => some o
      | none =>
        match Rdap.vcardStr3 (Rdap.vcardFind vcard "fn") with
        | some f => some f
        | none => extractOrganization rest
    | _ => extractOrganization rest

/-- Shallow embedding of `extractDate` (ip-rdap.ts, lines 195-201):
`undefined` when the action is absent. -/
def extractDate (events : Option (List Rdap.RdapEvent)) (action : String) :
    Option String :=
  (events.bind (fun evs => evs.find? (fun e => e.eventAction == action))).map
    (fun e => jsDateToUTCString e.eventDate)

/-- Models `a || b` over `string | undefined` values. -/
def jsOrOpt (a b : Option String) : Option String :=
  match a with
  | some s => if s = "" then b else a
  | none => b

/-- JavaScript truthiness of a `string | undefined` value. -/
def jsTruthyStr (o : Option String) : Bool :=
  match o with
  | some s => s ≠ ""
  | none => false

/-- Models `Number(part)` for the dotted-quad parts `ipToInt` splits off:
`none` is `NaN` (an absent part, or a layout outside the digit-run forms
this embedding covers); the empty string is 0. -/
def jsNumberPart (o : Option (List Char)) : Option Int :=
  match o with
  | none => none
  | some s =>
    match trimChars s with
    | [] => some 0
    | '-' :: ds =>
      if ds ≠ [] && ds.all Char.isDigit then some (-(digitsToNat ds : Int))
      else none
    | '+' :: ds =>
      if ds ≠ [] && ds.all Char.isDigit then some (digitsToNat ds : Int)
      else none
    | ds => if ds.all Char.isDigit then some (digitsToNat ds : Int) else none

/-- ECMAScript `ToInt32` with `NaN` mapped to 0. -/
def toInt32 (x : Option Int) : Int :=
  match x with
  | none => 0
  | some v =>
    let m := v % 4294967296
    if m < 2147483648 then m else m - 4294967296

/-- Shallow embedding of `ipToInt` (ip-rdap.ts, lines 166-169) with the
JavaScript signed `<<` semantics; `none` models a `NaN` sum. -/
def ipToInt (ip : String) : Option Int :=
  let parts := splitOnChar '.' ip.data
  let t0 := toInt32 ((jsNumberPart (parts.get? 0)).map (fun v => v * 16777216))
  let t1 := toInt32 ((jsNumberPart (parts.get? 1)).map (fun v => v * 65536))
  let t2 := toInt32 ((jsNumberPart (parts.get? 2)).map (fun v => v * 256))
  (jsNumberPart (parts.get? 3)).map (fun v3 => t0 + t1 + t2 + v3)

/-- The rendered value of `Math.floor(32 - Math.log2(size))` as it appears
in the CIDR template: `NaN` for a negative size, `Infinity` for size 0
(`Math.log2(0)` is negative infinity), else the exact floor. -/
def cidrSuffix (size : Int) : String :=
  if size < 0 then "NaN"
  else if size = 0 then "Infinity"
  else
    let s := size.toNat
    let k := Nat.log2 s
    toString (if s = 2 ^ k then (32 : Int) - k else (31 : Int) - k)

/-- The IPv4 prefix-length string of the CIDR builder; a `NaN` start or
end address propagates into the template literal. -/
def ipv4CidrSuffix (sa ea : String) : String :=
  match ipToInt sa, ipToInt ea with
  | some s, some e => cidrSuffix (e - s + 1)
  | _, _ => "NaN"

/-- The result construction of `lookupIP` after a successful RDAP query
(ip-rdap.ts, lines 238-282).  The catch arm of the CIDR builder is dead
code (no operation in the try arm throws) and is not modelled. -/
def buildResult (normalizedIP : String) (version : IpUtils.IPVersion)
    (rdapServer : String) (rdapData : RdapIPResponse) : NormalizedIPData :=
  let organization :=
    match rdapData.entities with
    | some es => extractOrganization es
    | none => none
  let registrar := rdapData.entities.bind (fun es =>
    es.find? (fun e =>
      match e.roles with
      | some rs => rs.contains "registrar"
      | none => false))
  { ip := normalizedIP
    type := version
    network :=
      { cidr :=
          if jsTruthyStr rdapData.startAddress
              && jsTruthyStr rdapData.endAddress then
            let sa := rdapData.startAddress.getD ""
            match version with
            | IpUtils.IPVersion.IPv4 =>
              some (sa ++ "/" ++ ipv4CidrSuffix sa (rdapData.endAddress.getD ""))
            | IpUtils.IPVersion.IPv6 => some (sa ++ "/64")
          else none
        name := rdapData.name
        country := rdapData.country
        organization := organization
        registrar := registrar.bind (fun r => extractOrganization [r])
        registrationDate := extractDate rdapData.events "registration"
        lastChanged :=
          jsOrOpt (extractDate rdapData.events "last changed")
            (extractDate rdapData.events "last update") }
    rdapServer := rdapServer }

/-- Shallow embedding of `lookupIP` (ip-rdap.ts, lines 206-290) as a trace
function: module state and the two network oracles are explicit, and the
second component lists the network actions performed, in order.  Error
strings are the thrown messages. -/
def lookupIP (st : BootstrapState) (now : Nat)
    (bootstrapNet : Except String (Rdap.Services × Rdap.Services))
    (rdapNet : Except String RdapIPResponse) (ip : String) :
    Except String NormalizedIPData × List NetEffect :=
  let validation := IpUtils.validateIP ip
  match validation.isValid, validation.version, validation.normalized with
  | true, some version, some normalizedIP =>
    if IpUtils.isPrivateIP normalizedIP then
      (Except.error "Private IP addresses are not supported", [])
    else if IpUtils.isReservedIP normalizedIP then
      (Except.error "Reserved IP addresses are not supported", [])
    else
      match fetchBootstrapData st now bootstrapNet with
      | (Except.error e, effs) => (Except.error e, effs)
      | (Except.ok st2, effs) =>
        let cache :=
          match version with
          | IpUtils.IPVersion.IPv4 => st2.ipv4BootstrapCache
          | IpUtils.IPVersion.IPv6 => st2.ipv6BootstrapCache
        match findRdapServerForIP cache normalizedIP version with
        | Except.error e => (Except.error e, effs)
        | Except.ok none =>
          (Except.error ("No RDAP server found for IP " ++ normalizedIP), effs)
        | Except.ok (some rdapServer) =>
          let baseUrl :=
            if rdapServer.endsWith "/" then rdapServer else rdapServer ++ "/"
          let effs2 := effs ++ [NetEffect.rdapQuery (baseUrl ++ "ip/" ++ normalizedIP)]
          match rdapNet with
          | Except.error e => (Except.error e, effs2)
          | Except.ok rdapData =>
            (Except.ok (buildResult normalizedIP version rdapServer rdapData), effs2)
  | _, _, _ => (Except.error (validation.error.getD "Invalid IP address"), [])

end IpRdap

/-- The end-to-end scenario input: the raw CloudFlare-style domain RDAP
response from the specification's test vector. -/
def cloudflareScenario : Rdap.RdapResponse :=
  { events := some [⟨"registration", "2021-09-19T15:18:19Z"⟩]
    entities := some
      [⟨some ["registrar"],
        some [JVal.str "vcard",
          JVal.arr [JVal.arr [JVal.str "fn", JVal.other, JVal.str "text",
            JVal.str "CloudFlare, Inc."]]]⟩]
    status := some ["client transfer prohibited"]
    nameservers := some [⟨some "lara.ns.cloudflare.com"⟩] }

/-- A response whose only event is a `last update` event: the input on
which the `lastUpdated` fallback chain is observable. -/
def lastUpdateOnly : Rdap.RdapResponse :=
  { events := some [⟨"last update", "2021-09-19T15:18:19Z"⟩] }

/-- The empty raw response: every optional field absent. -/
def emptyRdapResponse : Rdap.RdapResponse := {}

/-- A response with nameserver entries lacking (or with empty) `ldhName`
values alongside a named one. -/
def nsMissingNames : Rdap.RdapResponse :=
  { nameservers := some [⟨none⟩, ⟨some "a.example"⟩, ⟨some ""⟩] }

/-- Spec-side definition for the resolver refinement: the first table
entry (in table order) whose range set contains the TLD, per the
specification's words. -/
def Rdap.firstMatchingService (services : Rdap.Services) (tld : String) :
    Option (List String × List String) :=
  services.find? (fun svc => svc.1.contains tld)

/-- A sample bootstrap payload for concrete cache scenarios. -/
def sampleBootstrap : RdapBootstrap.BootstrapData :=
  { description := "RDAP bootstrap file for Domain Name System registrations"
    publication := "2024-01-01T00:00:00Z"
    services := [(["co"], ["https://example/"])]
    version := "1.0" }

/-!  ## Theorems

General-purpose lemmas first, then one theorem per claim (with witnesses
and counterexamples where applicable). -/

theorem dropWhile_dropWhile_eq {α : Type} (p : α → Bool) (l : List α) :
    (l.dropWhile p).dropWhile p = l.dropWhile p := by
  induction l with
  | nil => rfl
  | cons a t ih =>
    cases hp : p a
    · simp [List.dropWhile_cons, hp]
    · simp [List.dropWhile_cons, hp, ih]

theorem dropWhile_cons_head_false {α : Type} (p : α → Bool) (l : List α)
    (a : α) (t : List α) (h : l.dropWhile p = a :: t) : p a = false := by
  induction l with
  | nil => exact absurd h (by simp)
  | cons b s ih =>
    rw [List.dropWhile_cons] at h
    cases hp : p b
    · rw [if_neg (by simp [hp])] at h
      injection h with h1 h2
      exact h1 ▸ hp
    · rw [if_pos hp] at h
      exact ih h

theorem trimChars_leading (l : List Char) :
    (trimChars l).dropWhile Char.isWhitespace = trimChars l := by
  cases hf : trimChars l with
  | nil => simp
  | cons a t =>
    have hm : l.dropWhile Char.isWhitespace =
        trimChars l ++
          ((l.dropWhile Char.isWhitespace).reverse.takeWhile Char.isWhitespace).reverse := by
      unfold trimChars
      conv_lhs =>
        rw [← List.reverse_reverse (l.dropWhile Char.isWhitespace),
          ← List.takeWhile_append_dropWhile (p := Char.isWhitespace)
            (l := (l.dropWhile Char.isWhitespace).reverse)]
      rw [List.reverse_append]
    rw [hf] at hm
    have hcons : l.dropWhile Char.isWhitespace =
        a :: (t ++ ((l.dropWhile Char.isWhitespace).reverse.takeWhile Char.isWhitespace).reverse) := by
      simpa using hm
    have ha : Char.isWhitespace a = false :=
      dropWhile_cons_head_false Char.isWhitespace l a _ hcons
    rw [List.dropWhile_cons, if_neg (by simp [ha])]

theorem trimChars_idem (l : List Char) :
    trimChars (trimChars l) = trimChars l := by
  show ((((trimChars l).dropWhile Char.isWhitespace).reverse).dropWhile
      Char.isWhitespace).reverse = trimChars l
  rw [trimChars_leading l]
  conv_lhs => rw [trimChars]
  rw [List.reverse_reverse, dropWhile_dropWhile_eq]
  rfl

theorem jsTrim_idem (s : String) : jsTrim (jsTrim s) = jsTrim s := by
  unfold jsTrim
  rw [show (String.mk (trimChars s.data)).data = trimChars s.data from rfl,
    trimChars_idem]

/-- C1: on the raw domain RDAP input with the CloudFlare registration
event, registrar entity, transfer-prohibited status and single nameserver,
`normalizeRdapResponse` yields registrar "CloudFlare, Inc.",
registeredOn "Sun, 19 Sep 2021 15:18:19 GMT", the title-cased status with
its ICANN EPP URL, and the single nameserver name. -/
theorem normalize_cloudflare_scenario :
    (Rdap.normalizeRdapResponse cloudflareScenario none).registrar =
        "CloudFlare, Inc." ∧
    (Rdap.normalizeRdapResponse cloudflareScenario none).registeredOn =
        "Sun, 19 Sep 2021 15:18:19 GMT" ∧
    (Rdap.normalizeRdapResponse cloudflareScenario none).statuses =
        [⟨"Client transfer prohibited",
          "https://icann.org/epp#clienttransferprohibited"⟩] ∧
    (Rdap.normalizeRdapResponse cloudflareScenario none).nameservers =
        ["lara.ns.cloudflare.com"] :=
  ⟨rfl, rfl, rfl, rfl⟩

/-- C2 (code bug): `lastUpdated` is computed as
`findDate("last changed") || findDate("last update") || "N/A"`, but
`findDate` never returns an empty (falsy) string, so the "last update"
fallback is dead: on an input whose only event is a `last update` event,
`lastUpdated` is "N/A" even though `findDate` would format that event's
date. -/
theorem lastUpdated_fallback_dead :
    (Rdap.normalizeRdapResponse lastUpdateOnly none).lastUpdated = "N/A" ∧
    Rdap.findDate lastUpdateOnly "last update" =
        "Sun, 19 Sep 2021 15:18:19 GMT" ∧
    ∀ (data : Rdap.RdapResponse) (action : String),
      0 < (Rdap.findDate data action).length := by
  refine ⟨rfl, rfl, ?_⟩
  intro data action
  have hgmt : (" GMT" : String).length = 4 := rfl
  have hinv : ("Invalid Date" : String).length = 12 := rfl
  have hna : ("N/A" : String).length = 3 := rfl
  unfold Rdap.findDate
  split
  · unfold jsDateToUTCString
    split
    · unfold formatUTCString
      rw [String.length_append]
      omega
    · omega
  · omega

/-- C3 (counterexample): nameserver entries without a (nonempty) `ldhName`
are not dropped: they surface as the "N/A" placeholder, because
`ns.ldhName || "N/A"` is never falsy and `.filter(Boolean)` therefore
removes nothing. -/
theorem nameservers_na_kept_cex :
    (Rdap.normalizeRdapResponse nsMissingNames none).nameservers =
      ["N/A", "a.example", "N/A"] := rfl

theorem ns_map_filter (nss : List Rdap.RdapNameserver) :
    ((nss.map (fun ns => jsOr (ns.ldhName.getD "") "N/A")).filter
        (fun s => s != "")) =
      nss.map (fun ns =>
        match ns.ldhName with
        | some n => if n = "" then "N/A" else n
        | none => "N/A") := by
  have hfun : ∀ ns : Rdap.RdapNameserver,
      jsOr (ns.ldhName.getD "") "N/A" =
        (match ns.ldhName with
         | some n => if n = "" then "N/A" else n
         | none => "N/A") := by
    intro ns
    cases hn : ns.ldhName with
    | none => simp [jsOr]
    | some n =>
      by_cases h : n = "" <;> simp [jsOr, h]
  have hall : ∀ s ∈ nss.map (fun ns => jsOr (ns.ldhName.getD "") "N/A"),
      (s != "") = true := by
    intro s hs
    obtain ⟨ns, _, rfl⟩ := List.mem_map.mp hs
    cases hn : ns.ldhName with
    | none => simp [jsOr]
    | some n =>
      by_cases h : n = "" <;> simp [jsOr, h]
  rw [List.filter_eq_self.mpr hall]
  exact List.map_congr_left (fun ns _ => hfun ns)

/-- C3 (amended): the `nameservers` field maps every nameserver entry to
its `ldhName`, substituting "N/A" for an absent or empty name; no entry is
dropped (the `.filter(Boolean)` stage removes only empty strings, which
the map never produces). -/
theorem nameservers_ldh_mapping :
    ∀ (data : Rdap.RdapResponse) (u : Option String),
      (Rdap.normalizeRdapResponse data u).nameservers =
        (data.nameservers.getD []).map (fun ns =>
          match ns.ldhName with
          | some n => if n = "" then "N/A" else n
          | none => "N/A") := by
  intro data u
  cases hns : data.nameservers with
  | none => simp [Rdap.normalizeRdapResponse, hns]
  | some nss => simp [Rdap.normalizeRdapResponse, hns, ns_map_filter]

/-- C9: `dnssec` is "Signed" exactly when `secureDNS.delegationSigned` is
present and true, and "Unsigned" in every other case; the "N/A" value the
output type permits is never produced. -/
theorem dnssec_signed_iff :
    ∀ (data : Rdap.RdapResponse) (u : Option String),
      ((Rdap.normalizeRdapResponse data u).dnssec = "Signed" ↔
        data.secureDNS.bind (fun s => s.delegationSigned) = some true) ∧
      ((Rdap.normalizeRdapResponse data u).dnssec = "Signed" ∨
        (Rdap.normalizeRdapResponse data u).dnssec = "Unsigned") := by
  intro data u
  cases hb : data.secureDNS.bind (fun s => s.delegationSigned) with
  | none => simp [Rdap.normalizeRdapResponse, hb]
  | some b => cases b <;> simp [Rdap.normalizeRdapResponse, hb]

/-- C5: for an integer input, `validateASN` reports valid with the input
as normalized value exactly when it lies in 0..4294967295 and is none of
the reserved values 0, 65535, 4294967295; in particular 0, 65535 and
4294967295 are rejected as reserved while 1 and 4294967294 are valid. -/
theorem validateASN_integer_spec :
    (∀ n : Int,
      ((AsnRdap.validateASN (Sum.inr n)).isValid = true ∧
        (AsnRdap.validateASN (Sum.inr n)).normalized = some n) ↔
      (0 ≤ n ∧ n ≤ 4294967295 ∧ n ≠ 0 ∧ n ≠ 65535 ∧ n ≠ 4294967295)) ∧
    AsnRdap.validateASN (Sum.inr 0) = ⟨false, none, some "Reserved ASN"⟩ ∧
    AsnRdap.validateASN (Sum.inr 65535) = ⟨false, none, some "Reserved ASN"⟩ ∧
    AsnRdap.validateASN (Sum.inr 4294967295) =
        ⟨false, none, some "Reserved ASN"⟩ ∧
    AsnRdap.validateASN (Sum.inr 1) = ⟨true, some 1, none⟩ ∧
    AsnRdap.validateASN (Sum.inr 4294967294) =
        ⟨true, some 4294967294, none⟩ := by
  refine ⟨?_, rfl, rfl, rfl, rfl, rfl⟩
  intro n
  unfold AsnRdap.validateASN
  dsimp only
  split_ifs with h1 h2
  · simp only [show (false = true) = False by simp, false_and, false_iff]
    omega
  · simp only [show (false = true) = False by simp, false_and, false_iff]
    omega
  · simp only [true_and, Option.some.injEq, iff_true, true_iff]
    constructor
    · omega
    · omega

/-- C6: `findRdapServerUrl` returns the first URL of the first entry (in
table order) whose TLD set contains the queried TLD exactly
(case-sensitively), and the not-found outcome when no entry matches; in
particular with the single entry (["co"], ["https://example/"]), "co"
resolves to "https://example/" while "xyz" (and the differently-cased
"CO") resolve to not-found. -/
theorem findRdapServerUrl_first_match :
    (∀ (services : Rdap.Services) (tld : String),
      Rdap.findRdapServerUrl services tld =
        (Rdap.firstMatchingService services tld).bind (fun svc => svc.2.head?)) ∧
    Rdap.findRdapServerUrl [(["co"], ["https://example/"])] "co" =
        some "https://example/" ∧
    Rdap.findRdapServerUrl [(["co"], ["https://example/"])] "xyz" = none ∧
    Rdap.findRdapServerUrl [(["co"], ["https://example/"])] "CO" = none := by
  refine ⟨?_, rfl, rfl, rfl⟩
  intro services tld
  induction services with
  | nil => rfl
  | cons svc rest ih =>
    obtain ⟨tlds, urls⟩ := svc
    cases h : tlds.contains tld with
    | true =>
      have hm : tld ∈ tlds := by simpa using h
      simp [Rdap.findRdapServerUrl, Rdap.firstMatchingService,
        List.find?_cons, h, hm]
    | false =>
      have hm : ¬tld ∈ tlds := by simpa using h
      simp [Rdap.findRdapServerUrl, Rdap.firstMatchingService,
        List.find?_cons, h, hm, ih]

/-- C8 (counterexample): when `secureDNS` is absent the affected output
field `dnssec` is "Unsigned" — a definite value, not the "N/A"
unavailable marker (nor an empty list, nor omitted). -/
theorem dnssec_unsigned_not_na_cex :
    (Rdap.normalizeRdapResponse emptyRdapResponse none).dnssec = "Unsigned" ∧
    ("Unsigned" : String) ≠ "N/A" :=
  ⟨rfl, by decide⟩

/-- C8 (amended): the normalizer is total on inputs with missing optional
fields, and each affected output field defaults to the "N/A" marker, an
empty list, or omission — except `dnssec`, which defaults to the definite
value "Unsigned" when `secureDNS` is absent. -/
theorem normalize_missing_defaults :
    ∀ (data : Rdap.RdapResponse) (u : Option String),
      (data.ldhName = none →
        (Rdap.normalizeRdapResponse data u).domainName = "N/A") ∧
      (data.events = none →
        (Rdap.normalizeRdapResponse data u).registeredOn = "N/A" ∧
        (Rdap.normalizeRdapResponse data u).expiresOn = "N/A" ∧
        (Rdap.normalizeRdapResponse data u).lastUpdated = "N/A" ∧
        (Rdap.normalizeRdapResponse data u).lastTransferred = "N/A") ∧
      (data.entities = none →
        (Rdap.normalizeRdapResponse data u).registrar = "N/A" ∧
        (Rdap.normalizeRdapResponse data u).registrarUrl = none ∧
        (Rdap.normalizeRdapResponse data u).registrarAbuseEmail = none ∧
        (Rdap.normalizeRdapResponse data u).registrarAbusePhone = none ∧
        (Rdap.normalizeRdapResponse data u).entities = []) ∧
      (data.status = none →
        (Rdap.normalizeRdapResponse data u).statuses = []) ∧
      (data.nameservers = none →
        (Rdap.normalizeRdapResponse data u).nameservers = []) ∧
      (data.secureDNS = none →
        (Rdap.normalizeRdapResponse data u).dnssec = "Unsigned") ∧
      (data.remarks = none →
        (Rdap.normalizeRdapResponse data u).remarks = none) ∧
      (data.links = none →
        (Rdap.normalizeRdapResponse data u).links = none) := by
  intro data u
  refine ⟨?_, ?_, ?_, ?_, ?_, ?_, ?_, ?_⟩
  · intro h
    simp [Rdap.normalizeRdapResponse, jsOr, h]
  · intro h
    refine ⟨?_, ?_, ?_, ?_⟩ <;>
      simp [Rdap.normalizeRdapResponse, Rdap.findDate, jsOr, h]
  · intro h
    refine ⟨?_, ?_, ?_, ?_, ?_⟩ <;>
      simp [Rdap.normalizeRdapResponse, Rdap.findRegistrar,
        Rdap.findRegistrarDetails, h]
  · intro h
    simp [Rdap.normalizeRdapResponse, h]
  · intro h
    simp [Rdap.normalizeRdapResponse, h]
  · intro h
    simp [Rdap.normalizeRdapResponse, h]
  · intro h
    simp [Rdap.normalizeRdapResponse, h]
  · intro h
    simp [Rdap.normalizeRdapResponse, h]

/-- C8 (witness): the amended theorem applied to the empty raw response. -/
theorem normalize_missing_defaults_witness :
    (Rdap.normalizeRdapResponse emptyRdapResponse none).domainName = "N/A" ∧
    (Rdap.normalizeRdapResponse emptyRdapResponse none).statuses = [] ∧
    (Rdap.normalizeRdapResponse emptyRdapResponse none).nameservers = [] ∧
    (Rdap.normalizeRdapResponse emptyRdapResponse none).dnssec = "Unsigned" :=
  ⟨(normalize_missing_defaults emptyRdapResponse none).1 rfl,
   (normalize_missing_defaults emptyRdapResponse none).2.2.2.1 rfl,
   (normalize_missing_defaults emptyRdapResponse none).2.2.2.2.1 rfl,
   (normalize_missing_defaults emptyRdapResponse none).2.2.2.2.2.1 rfl⟩

/-- C4 (counterexample): the DNS bootstrap cache used by the domain flow
(`fetchAndCacheServers`) consults no clock: once populated it is reused
unconditionally — no request, however late, triggers a refetch, whether
the network is up or down. -/
theorem fetchAndCacheServers_no_ttl_cex :
    Rdap.fetchAndCacheServers (some [(["co"], ["https://example/"])])
        (Except.ok []) =
      (Except.ok (), some [(["co"], ["https://example/"])], false) ∧
    Rdap.fetchAndCacheServers (some [(["co"], ["https://example/"])])
        (Except.error "network down") =
      (Except.ok (), some [(["co"], ["https://example/"])], false) :=
  ⟨rfl, rfl⟩

/-- C4 (amended): the centralized bootstrap cache (`fetchBootstrapData`)
does honour the 24h TTL for every resource type: an entry is returned
without fetching while `now < expiry`, and a request at or past the expiry
(or with no cached entry) performs a fetch, a successful one stamping the
new entry with `now + CACHE_TTL`. -/
theorem fetchBootstrapData_ttl :
    ∀ (cache : RdapBootstrap.Cache) (now : Nat)
      (t : RdapBootstrap.BootstrapType)
      (net : Except String RdapBootstrap.BootstrapData),
      (∀ e, RdapBootstrap.cacheGet cache t = some e → now < e.expiry →
        RdapBootstrap.fetchBootstrapData cache now t net =
          (Except.ok e.data, cache, false)) ∧
      (∀ e, RdapBootstrap.cacheGet cache t = some e → e.expiry ≤ now →
        (RdapBootstrap.fetchBootstrapData cache now t net).2.2 = true) ∧
      (RdapBootstrap.cacheGet cache t = none →
        (RdapBootstrap.fetchBootstrapData cache now t net).2.2 = true) ∧
      (∀ d, net = Except.ok d →
        (RdapBootstrap.cacheGet cache t = none ∨
          (∃ e, RdapBootstrap.cacheGet cache t = some e ∧ e.expiry ≤ now)) →
        RdapBootstrap.fetchBootstrapData cache now t net =
          (Except.ok d,
            RdapBootstrap.cacheSet cache t ⟨d, now + RdapBootstrap.CACHE_TTL⟩,
            true)) := by
  intro cache now t net
  refine ⟨?_, ?_, ?_, ?_⟩
  · intro e he hlt
    simp [RdapBootstrap.fetchBootstrapData, he, hlt]
  · intro e he hge
    simp only [RdapBootstrap.fetchBootstrapData, he]
    rw [if_neg (by omega)]
    cases net <;> simp [RdapBootstrap.fetchFresh]
  · intro he
    simp only [RdapBootstrap.fetchBootstrapData, he]
    cases net <;> simp [RdapBootstrap.fetchFresh]
  · intro d hnet hstale
    subst hnet
    rcases hstale with hnone | ⟨e, he, hge⟩
    · simp [RdapBootstrap.fetchBootstrapData, hnone, RdapBootstrap.fetchFresh]
    · simp only [RdapBootstrap.fetchBootstrapData, he]
      rw [if_neg (by omega)]
      simp [RdapBootstrap.fetchFresh]

/-- C4 (witness): concrete cache states exercising the amended theorem:
reuse strictly before expiry, refetch at expiry, refetch on a miss. -/
theorem fetchBootstrapData_ttl_witness :
    RdapBootstrap.fetchBootstrapData
        [(RdapBootstrap.BootstrapType.dns, ⟨sampleBootstrap, 100⟩)] 99
        RdapBootstrap.BootstrapType.dns (Except.ok sampleBootstrap) =
      (Except.ok sampleBootstrap,
        [(RdapBootstrap.BootstrapType.dns, ⟨sampleBootstrap, 100⟩)], false) ∧
    (RdapBootstrap.fetchBootstrapData
        [(RdapBootstrap.BootstrapType.dns, ⟨sampleBootstrap, 100⟩)] 100
        RdapBootstrap.BootstrapType.dns (Except.ok sampleBootstrap)).2.2 =
      true ∧
    (RdapBootstrap.fetchBootstrapData [] 0 RdapBootstrap.BootstrapType.dns
        (Except.ok sampleBootstrap)).2.2 = true :=
  ⟨(fetchBootstrapData_ttl _ 99 _ _).1 ⟨sampleBootstrap, 100⟩ rfl (by decide),
   (fetchBootstrapData_ttl _ 100 _ _).2.1 ⟨sampleBootstrap, 100⟩ rfl
     (by decide),
   (fetchBootstrapData_ttl _ 0 _ _).2.2.1 rfl⟩

theorem digit_not_ws (c : Char) (h : c.isDigit = true) :
    c.isWhitespace = false := by
  cases hw : c.isWhitespace
  · rfl
  · exfalso
    have hc : c = ' ' ∨ c = '\t' ∨ c = '\r' ∨ c = '\n' := by
      simpa [Char.isWhitespace, or_assoc] using hw
    rcases hc with rfl | rfl | rfl | rfl <;> exact absurd h (by decide)

theorem takeWhile_digits_append (ds rest : List Char)
    (hds : ds.all Char.isDigit = true)
    (hrest : rest.head?.all (fun c => !c.isDigit) = true) :
    (ds ++ rest).takeWhile Char.isDigit = ds := by
  induction ds with
  | nil =>
    cases rest with
    | nil => rfl
    | cons r t =>
      have hr : r.isDigit = false := by simpa using hrest
      simp [List.takeWhile_cons, hr]
  | cons d ds' ih =>
    have h2 := hds
    rw [List.all_cons, Bool.and_eq_true] at h2
    simp [List.takeWhile_cons, h2.1, ih h2.2]

/-- C10 (counterexample): "0abc" begins with the decimal integer 0
followed by non-digits, yet `validateASN` does not accept it — the leading
integer 0 is reserved, so the result is invalid with "Reserved ASN". -/
theorem validateASN_leading_zero_cex :
    AsnRdap.validateASN (Sum.inl "0abc") =
      ⟨false, none, some "Reserved ASN"⟩ := by decide

/-- C10 (amended): `parseInt(s.trim(), 10)` reads the leading (optionally
signed) decimal integer and ignores trailing non-digits, so an input whose
trimmed form is a digit run followed by a non-digit tail validates exactly
as that leading integer does under the range and reserved checks (e.g.
"15169abc" is accepted as 15169); only inputs with no parseable leading
integer are rejected as "Invalid ASN format". -/
theorem validateASN_leading_integer :
    (∀ (s : String) (ds rest : List Char),
      (jsTrim s).data = ds ++ rest →
      ds ≠ [] →
      ds.all Char.isDigit = true →
      rest.head?.all (fun c => !c.isDigit) = true →
      AsnRdap.validateASN (Sum.inl s) =
        AsnRdap.validateASN (Sum.inr (digitsToNat ds : Int))) ∧
    AsnRdap.validateASN (Sum.inl "15169abc") = ⟨true, some 15169, none⟩ ∧
    (∀ s : String, parseIntJS (jsTrim s) = none →
      AsnRdap.validateASN (Sum.inl s) =
        ⟨false, none, some "Invalid ASN format"⟩) := by
  refine ⟨?_, by decide, ?_⟩
  · intro s ds rest hdata hne hds hrest
    obtain ⟨d, ds', rfl⟩ : ∃ d ds', ds = d :: ds' := by
      cases ds with
      | nil => exact absurd rfl hne
      | cons d ds' => exact ⟨d, ds', rfl⟩
    have hd : d.isDigit = true := by
      have h2 := hds
      rw [List.all_cons, Bool.and_eq_true] at h2
      exact h2.1
    have hparse : parseIntJS (jsTrim s) = some (digitsToNat (d :: ds') : Int) := by
      unfold parseIntJS
      rw [hdata, List.cons_append, List.dropWhile_cons,
        if_neg (by simp [digit_not_ws d hd])]
      have hdm : d ≠ '-' := by
        intro hh
        rw [hh] at hd
        exact absurd hd (by decide)
      have hdp : d ≠ '+' := by
        intro hh
        rw [hh] at hd
        exact absurd hd (by decide)
      dsimp only
      rw [if_neg hdm, if_neg hdp]
      unfold parseDigitRun
      dsimp only
      rw [show d :: (ds' ++ rest) = (d :: ds') ++ rest from rfl,
        takeWhile_digits_append _ _ hds hrest, if_neg hne]
    unfold AsnRdap.validateASN
    dsimp only
    rw [hparse]
  · intro s hnone
    unfold AsnRdap.validateASN
    dsimp only
    rw [hnone]

/-- C10 (witness): the amended theorem applied to " 15169abc" with digit
run "15169" and tail "abc". -/
theorem validateASN_leading_integer_witness :
    AsnRdap.validateASN (Sum.inl " 15169abc") =
      AsnRdap.validateASN (Sum.inr (digitsToNat ("15169".data) : Int)) :=
  validateASN_leading_integer.1 " 15169abc" "15169".data "abc".data
    (by decide) (by decide) (by decide) (by decide)

theorem isPrivateIP_jsTrim (ip : String) :
    IpUtils.isPrivateIP (jsTrim ip) = IpUtils.isPrivateIP ip := by
  unfold IpUtils.isPrivateIP IpUtils.validateIP
  rw [jsTrim_idem]

theorem isReservedIP_jsTrim (ip : String) :
    IpUtils.isReservedIP (jsTrim ip) = IpUtils.isReservedIP ip := by
  unfold IpUtils.isReservedIP IpUtils.validateIP
  rw [jsTrim_idem]

/-- C7: a private or reserved input address makes `lookupIP` fail with the
corresponding validation error before any network action: no bootstrap
fetch and no RDAP query appears in the trace, whatever the cache state and
network oracles. -/
theorem lookupIP_private_reserved_shortcircuit :
    ∀ (st : IpRdap.BootstrapState) (now : Nat)
      (bnet : Except String (Rdap.Services × Rdap.Services))
      (rnet : Except String IpRdap.RdapIPResponse) (ip : String),
      IpUtils.isPrivateIP ip = true ∨ IpUtils.isReservedIP ip = true →
      (∃ msg, (IpRdap.lookupIP st now bnet rnet ip).1 = Except.error msg) ∧
      (IpRdap.lookupIP st now bnet rnet ip).2 = [] := by
  intro st now bnet rnet ip h
  cases h4 : IpUtils.parseIPv4 (jsTrim ip) with
  | some a =>
    have hv : IpUtils.validateIP ip =
        ⟨true, some IpUtils.IPVersion.IPv4, some (jsTrim ip), none⟩ := by
      unfold IpUtils.validateIP
      rw [h4]
    cases hp : IpUtils.isPrivateIP (jsTrim ip) with
    | true =>
      have heq : IpRdap.lookupIP st now bnet rnet ip =
          (Except.error "Private IP addresses are not supported", []) := by
        simp [IpRdap.lookupIP, hv, hp]
      exact ⟨⟨_, by rw [heq]⟩, by rw [heq]⟩
    | false =>
      have hr : IpUtils.isReservedIP (jsTrim ip) = true := by
        rcases h with hpriv | hres
        · rw [isPrivateIP_jsTrim, hpriv] at hp
          exact absurd hp (by simp)
        · rw [isReservedIP_jsTrim]
          exact hres
      have heq : IpRdap.lookupIP st now bnet rnet ip =
          (Except.error "Reserved IP addresses are not supported", []) := by
        simp [IpRdap.lookupIP, hv, hp, hr]
      exact ⟨⟨_, by rw [heq]⟩, by rw [heq]⟩
  | none =>
    cases h6 : IpUtils.parseIPv6 (jsTrim ip) with
    | some a =>
      have hv : IpUtils.validateIP ip =
          ⟨true, some IpUtils.IPVersion.IPv6, some (jsTrim ip), none⟩ := by
        unfold IpUtils.validateIP
        rw [h4, h6]
      cases hp : IpUtils.isPrivateIP (jsTrim ip) with
      | true =>
        have heq : IpRdap.lookupIP st now bnet rnet ip =
            (Except.error "Private IP addresses are not supported", []) := by
          simp [IpRdap.lookupIP, hv, hp]
        exact ⟨⟨_, by rw [heq]⟩, by rw [heq]⟩
      | false =>
        have hr : IpUtils.isReservedIP (jsTrim ip) = true := by
          rcases h with hpriv | hres
          · rw [isPrivateIP_jsTrim, hpriv] at hp
            exact absurd hp (by simp)
          · rw [isReservedIP_jsTrim]
            exact hres
        have heq : IpRdap.lookupIP st now bnet rnet ip =
            (Except.error "Reserved IP addresses are not supported", []) := by
          simp [IpRdap.lookupIP, hv, hp, hr]
        exact ⟨⟨_, by rw [heq]⟩, by rw [heq]⟩
    | none =>
      have hv : IpUtils.validateIP ip =
          ⟨false, none, none, some "Invalid IP address format"⟩ := by
        unfold IpUtils.validateIP
        rw [h4, h6]
      exfalso
      rcases h with hpriv | hres
      · unfold IpUtils.isPrivateIP at hpriv
        rw [hv] at hpriv
        exact absurd hpriv (by simp)
      · unfold IpUtils.isReservedIP at hres
        rw [hv] at hres
        exact absurd hres (by simp)

/-- C7 (witness): the private address 10.0.0.1 short-circuits a concrete
lookup with an empty trace. -/
theorem lookupIP_shortcircuit_witness :
    (IpUtils.isPrivateIP "10.0.0.1" = true ∨
      IpUtils.isReservedIP "10.0.0.1" = true) ∧
    (∃ msg, (IpRdap.lookupIP ⟨none, none, 0⟩ 0 (Except.ok ([], []))
        (Except.error "down") "10.0.0.1").1 = Except.error msg) ∧
    (IpRdap.lookupIP ⟨none, none, 0⟩ 0 (Except.ok ([], []))
        (Except.error "down") "10.0.0.1").2 = [] := by
  have h : IpUtils.isPrivateIP "10.0.0.1" = true := by decide
  have main := lookupIP_private_reserved_shortcircuit ⟨none, none, 0⟩ 0
    (Except.ok ([], [])) (Except.error "down") "10.0.0.1" (Or.inl h)
  exact ⟨Or.inl h, main.1, main.2⟩
